import Mathlib

/-!
# Verification of the Mastermind assembly animation scripts

Shallow embedding of the two Python source files of the repository
`grok-animating-assembly-mastermind-project`:

* `run_animation.py` — a thin CLI wrapper that maps animation names to
  manim scene class names, builds a `python -m manim ...` command line and
  propagates the subprocess exit code;
* `animations.py` — the manim scenes themselves (`BaseAnimation` and its
  subclasses) together with a `create_animation` factory and a second
  `main` entry point that also shells out to manim.

Pure computations (bit rotation, popcount, the elimination loop counter,
the entropy grid bookkeeping, command-list construction) are translated
into executable Lean definitions; the effectful parts (subprocess
execution, filesystem access) are modelled by passing the outcome of the
effect as an explicit parameter.
-/

namespace MastermindAnim

/-! ## `run_animation.py`: name-to-class mapping and command construction -/

/-- The `animation_to_class` dictionary, identical at
`run_animation.py` lines 21–31 and lines 158–168 (insertion order kept). -/
def animationToClass : List (String × String) :=
  [("register_packing", "RegisterPackingExecution"),
   ("register_packing_detailed", "RegisterPackingDetailed"),
   ("register_packing_accurate", "RegisterPackingAccurate"),
   ("register_packing_accurate_fixed", "RegisterPackingAccurateFixed"),
   ("exact_match", "ExactMatchExecution"),
   ("elimination_loop", "EliminationLoopExecution"),
   ("entropy_reduction", "EntropyReduction"),
   ("stack_overwrite", "StackOverwriteExecution"),
   ("benchmark_chart", "BenchmarkChart")]

/-- `valid_animations = list(animation_to_class.keys())`
(`run_animation.py` line 170). -/
def validAnimations : List String := animationToClass.map Prod.fst

/-- The quality flags appended by both entry points:
`-ql` for `"low"`, `-qm` for `"medium"`, `-qh` otherwise
(`run_animation.py` lines 46–51, `animations.py` lines 866–871). -/
def qualityFlags (quality : String) : List String :=
  if quality = "low" then ["-ql"]
  else if quality = "medium" then ["-qm"]
  else ["-qh"]

/-- The manim command list built by `run_animation`
(`run_animation.py` lines 37–54): fixed prefix, format and media-dir
flags, quality flags, then `["animations.py", class_name]` where
`class_name = animation_to_class[animation_name]`.  `pythonExe` stands for
`sys.executable`. -/
def runAnimationCmd (pythonExe formatType outputDir quality className : String) :
    List String :=
  ([pythonExe, "-m", "manim",
    "--format", formatType,
    "--media_dir", outputDir,
    "--custom_folders",
    "-v", "WARNING"]
   ++ qualityFlags quality)
  ++ ["animations.py", className]

/-- The manim command list built by `main` in `animations.py`
(lines 857–874): the same prefix and flags, but ending with
`["animations.py", args.animation]` — the animation *name*, not the
mapped class name.  `mediaDir` stands for `str(output_dir)`. -/
def animationsMainCmd (pythonExe formatType mediaDir quality animationName : String) :
    List String :=
  ([pythonExe, "-m", "manim",
    "--format", formatType,
    "--media_dir", mediaDir,
    "--custom_folders",
    "-v", "WARNING"]
   ++ qualityFlags quality)
  ++ ["animations.py", animationName]

/-- The animation names accepted by `argparse` in `animations.py` `main`
(lines 802–805). -/
def animationsMainChoices : List String :=
  ["register_packing", "exact_match", "elimination_loop",
   "entropy_reduction", "stack_overwrite", "benchmark_chart"]

/-! ## `run_animation.py`: control flow of `run_animation` and `main` -/

/-- Outcome of the `subprocess.run` call inside the `try` block:
`some c` when the manim subprocess completed with return code `c`,
`none` when an exception prevented it from completing (so the local
variable `result` was never bound). -/
def SubprocessOutcome : Type := Option Int

/-- A Python exception surfaced by the embedding. -/
inductive PyError where
  | keyError (key : String)
  | valueError (msg : String)
  deriving DecidableEq, Repr

/-- The function `run_animation` (`run_animation.py` lines 16–105),
modelled up to its return value.  The unguarded dictionary lookup
`animation_to_class[animation_name]` (line 34) happens *before* the
`try` block, so an unknown name raises `KeyError`.  Otherwise the
function returns `result.returncode` when the subprocess completed and
`1` when an exception left `result` unbound (line 105:
`result.returncode if 'result' in locals() else 1`). -/
def run_animation (animationName : String) (subprocess : SubprocessOutcome) :
    Except PyError Int :=
  match animationToClass.lookup animationName with
  | none => .error (.keyError animationName)
  | some _ =>
    match subprocess with
    | some returncode => .ok returncode
    | none => .ok 1

/-- Observable effects and result of `main` in `run_animation.py`
(lines 107–184) once an animation name has been supplied
(`len(sys.argv) >= 2`). -/
structure RunAnimationMainResult where
  printedUnknownError : Bool
  madeOutputDir : Bool
  launchedSubprocess : Bool
  exitCode : Int
  deriving DecidableEq, Repr

/-- `main` of `run_animation.py` (lines 157–184) after argument parsing:
an unknown name prints an error and returns `1` before the
`Path(output_dir).mkdir(...)` call (line 181) and before
`run_animation` is invoked (line 184); a valid name creates the output
directory and delegates to `run_animation`. -/
def runAnimationMain (animationName : String) (subprocess : SubprocessOutcome) :
    RunAnimationMainResult :=
  if animationName ∈ validAnimations then
    { printedUnknownError := false
      madeOutputDir := true
      launchedSubprocess := true
      exitCode := match run_animation animationName subprocess with
        | .ok c => c
        | .error _ => 1 }
  else
    { printedUnknownError := true
      madeOutputDir := false
      launchedSubprocess := false
      exitCode := 1 }

/-- `main` of `animations.py` (lines 878–901), modelled on its return
value: a completed subprocess with return code `0` falls through the end
of the function (Python returns `None`, shown as `none`); a completed
subprocess with a non-zero return code reaches `return 1` (line 898);
an exception reaches `return 1` (line 901). -/
def animations_main_exit (subprocess : SubprocessOutcome) : Option Int :=
  match subprocess with
  | some returncode => if returncode = 0 then none else some 1
  | none => some 1

/-! ## `animations.py`: `BaseAnimation` configuration handling -/

/-- A configuration dictionary, as an association list of keys to opaque
string values (the Python values are heterogeneous; only emptiness and
equality of whole dictionaries matter to the claims). -/
def ConfigDict : Type := List (String × String)

instance : DecidableEq ConfigDict := by
  unfold ConfigDict; infer_instance

/-- `BaseAnimation.__init__` (`animations.py` lines 19–21):
`self.config = config or self.get_default_config()`.  Python `or` takes
the right operand when `config` is falsy, i.e. `None` or the empty
dictionary. -/
def baseAnimationInit (defaultConfig : ConfigDict) (config : Option ConfigDict) :
    ConfigDict :=
  match config with
  | none => defaultConfig
  | some c => if c.isEmpty then defaultConfig else c

/-! ## `animations.py`: `RegisterPackingExecution` bit rotation -/

/-- `initial_mask` from `RegisterPackingExecution.get_default_config`
(`animations.py` line 116): `0b10000000100000001000000010000000`. -/
def initialMask : Nat := 0x80808080

/-- One iteration of the loop in `RegisterPackingExecution.construct`
(`animations.py` lines 140–159).  First `rorb %cl, %bl`:
`rotated_byte = ((v & 0xFF) >> 3) | (((v & 0xFF) << 5) & 0xFF)` and
`new_value = (v & ~0xFF) | rotated_byte` — for a non-negative `v` the
mask `v & ~0xFF` clears the low byte, written here as
`(v >>> 8) <<< 8`.  Then `rorl $8, %ebx`:
`((new_value << 8) & 0xFFFFFFFF) | (new_value >> 24)`. -/
def registerPackingStep (v : Nat) : Nat :=
  let rotatedByte := ((v &&& 0xFF) >>> 3) ||| (((v &&& 0xFF) <<< 5) &&& 0xFF)
  let afterRorb := ((v >>> 8) <<< 8) ||| rotatedByte
  ((afterRorb <<< 8) &&& 0xFFFFFFFF) ||| (afterRorb >>> 24)

/-- The intermediate value inside one iteration, after the `rorb` but
before the `rorl` (`animations.py` lines 146–147). -/
def registerPackingMid (v : Nat) : Nat :=
  let rotatedByte := ((v &&& 0xFF) >>> 3) ||| (((v &&& 0xFF) <<< 5) &&& 0xFF)
  ((v >>> 8) <<< 8) ||| rotatedByte

/-- `current_value` after `n` iterations of the loop, starting from the
configured initial mask. -/
def registerPackingTrace (start : Nat) : Nat → Nat
  | 0 => start
  | n + 1 => registerPackingStep (registerPackingTrace start n)

/-! ## `animations.py`: `ExactMatchExecution` popcount -/

/-- Number of `'1'` characters in `bin(n)` for a non-negative `n`
(`animations.py` line 329: `bin(result).count('1')`), computed by
repeated division; the first argument is fuel bounding the recursion
depth, adequate whenever `n < 2 ^ fuel`. -/
def popcountAux : Nat → Nat → Nat
  | 0, _ => 0
  | fuel + 1, n => if n = 0 then 0 else n % 2 + popcountAux fuel (n / 2)

/-- Popcount of a natural number: fuel `n` always suffices since
`n < 2 ^ n`. -/
def popcount (n : Nat) : Nat := popcountAux n n

/-- The exact-match computation of `ExactMatchExecution.construct`
(`animations.py` lines 320–329): `result = guess_val & secret_val`,
then `bit_count = bin(result).count('1')`. -/
def exactMatchBitCount (guessValue secretValue : Nat) : Nat :=
  popcount (guessValue &&& secretValue)

/-- Default `guess_value` (`animations.py` line 304). -/
def defaultGuessValue : Nat := 0x80A02040

/-- Default `secret_value` (`animations.py` line 305). -/
def defaultSecretValue : Nat := 0x80102040

/-! ## `animations.py`: `EliminationLoopExecution` counter -/

/-- The loop of `EliminationLoopExecution.construct`
(`animations.py` lines 395–429): `result_index` starts at `0` and is
incremented exactly when `i in self.config['candidates_to_keep']`, for
`i in range(num_candidates)`. -/
def eliminationLoopCount (numCandidates : Nat) (candidatesToKeep : List Nat) : Nat :=
  (List.range numCandidates).foldl
    (fun resultIndex i =>
      if i ∈ candidatesToKeep then resultIndex + 1 else resultIndex) 0

/-- Default `num_candidates` (`animations.py` line 345). -/
def defaultNumCandidates : Nat := 10

/-- Default `candidates_to_keep` (`animations.py` line 346). -/
def defaultCandidatesToKeep : List Nat := [0, 2, 4, 6, 8]

/-! ## `animations.py`: `EntropyReduction` grid bookkeeping -/

/-- One step of the loop in `EntropyReduction.construct`
(`animations.py` lines 508–540): `dots_to_remove = len(grid) - remaining`
(a possibly negative Python int); when it is positive the grid is
replaced by `grid[dots_to_remove:]`, whose length is
`len(grid) - dots_to_remove = remaining`; otherwise the grid is left
unchanged. -/
def entropyStep (gridLen remaining : Nat) : Nat :=
  let dotsToRemove : Int := (gridLen : Int) - (remaining : Int)
  if 0 < dotsToRemove then gridLen - (gridLen - remaining) else gridLen

/-- Grid size after processing the steps for `remaining_counts` indices
`1, 2, ...` in order (the loop runs
`for i in range(1, len(remaining_counts))`), starting from a grid of
`initial_possibilities` dots. -/
def entropyGridTrace (start : Nat) (restCounts : List Nat) : List Nat :=
  match restCounts with
  | [] => []
  | r :: rs => entropyStep start r :: entropyGridTrace (entropyStep start r) rs

/-- Default `remaining_counts` (`animations.py` line 462). -/
def defaultRemainingCounts : List Nat := [1296, 432, 144, 48, 12, 3, 1]

/-- Default `initial_possibilities` (`animations.py` line 461). -/
def defaultInitialPossibilities : Nat := 1296

/-- The remaining-count figure displayed at step `i` of the loop is read
from the configuration list (`animations.py` line 509:
`remaining = self.config['remaining_counts'][i]`). -/
def entropyDisplayedRemaining (remainingCounts : List Nat) (i : Nat) : Option Nat :=
  remainingCounts.get? i

/-- The entropy figure displayed at step `i` of the loop is read from
the configuration list (`animations.py` line 510:
`entropy = self.config['entropy_bits'][i]`; the floats are carried as
opaque strings). -/
def entropyDisplayedBits (entropyBits : List String) (i : Nat) : Option String :=
  entropyBits.get? i

/-! ## `animations.py`: `create_animation` factory -/

/-- `scene_animations` (`animations.py` lines 771–773). -/
def sceneAnimations : List (String × String) :=
  [("register_packing_detailed", "RegisterPackingDetailed")]

/-- `base_animations` (`animations.py` lines 776–783). -/
def baseAnimations : List (String × String) :=
  [("register_packing", "RegisterPackingExecution"),
   ("exact_match", "ExactMatchExecution"),
   ("elimination_loop", "EliminationLoopExecution"),
   ("entropy_reduction", "EntropyReduction"),
   ("stack_overwrite", "StackOverwriteExecution"),
   ("benchmark_chart", "BenchmarkChart")]

/-- `all_animations = {**scene_animations, **base_animations}`
(`animations.py` line 785). -/
def allAnimations : List (String × String) := sceneAnimations ++ baseAnimations

/-- How an animation instance is constructed by the factory: either a
plain `Scene` subclass built with no arguments, or a `BaseAnimation`
subclass built with the given config. -/
inductive AnimationInstance where
  | scene (className : String)
  | base (className : String) (config : Option ConfigDict)
  deriving DecidableEq

/-- `create_animation` (`animations.py` lines 768–796): raises
`ValueError` for a name outside `all_animations`, otherwise constructs
the class — without config for scene-based animations, with the config
argument for `BaseAnimation`-based ones. -/
def create_animation (animationName : String) (config : Option ConfigDict) :
    Except PyError AnimationInstance :=
  match allAnimations.lookup animationName with
  | none => .error (.valueError animationName)
  | some className =>
    if (sceneAnimations.lookup animationName).isSome then
      .ok (.scene className)
    else
      .ok (.base className config)

/-! ## Spec-side reference definitions

These two definitions follow the wording of the specification claims
("that byte rotated right by 3 bit positions", "rotates the whole 32-bit
value left by 8 bit positions") rather than the source, so that the
source's mask-and-shift expressions can be compared against them. -/

/-- Rotation of an 8-bit value right by `k` positions, written
arithmetically: the low `k` bits wrap around to the top. -/
def rotrByteSpec (b k : Nat) : Nat :=
  (b % 2 ^ 8) / 2 ^ k + (b % 2 ^ k) * 2 ^ (8 - k)

/-- Rotation of a 32-bit value left by `k` positions, written
arithmetically: the high `k` bits wrap around to the bottom. -/
def rotlWordSpec (w k : Nat) : Nat :=
  (w % 2 ^ (32 - k)) * 2 ^ k + w / 2 ^ (32 - k)

/-! ## Helper lemmas -/

/-- A `List.lookup` on an association list misses exactly when the key is
outside the list of first components. -/
theorem lookup_eq_none_iff_not_mem (l : List (String × String)) (a : String) :
    l.lookup a = none ↔ a ∉ l.map Prod.fst := by
  induction l with
  | nil => simp [List.lookup]
  | cons p t ih =>
    obtain ⟨k, v⟩ := p
    simp only [List.lookup, List.map_cons, List.mem_cons]
    rcases h : (a == k) with _ | _
    · simp only [beq_eq_false_iff_ne, ne_eq] at h
      simp [h, ih]
    · simp only [beq_iff_eq] at h
      simp [h]

/-- `popcountAux` computes the number of true bits whenever the fuel
bounds the bit length of the input. -/
theorem popcountAux_eq_bits_count :
    ∀ (fuel n : Nat), n < 2 ^ fuel → popcountAux fuel n = n.bits.count true := by
  intro fuel
  induction fuel with
  | zero =>
    intro n hn
    interval_cases n
    simp [popcountAux, Nat.zero_bits]
  | succ fuel ih =>
    intro n hn
    rcases Nat.eq_zero_or_pos n with h0 | h0
    · subst h0; simp [popcountAux, Nat.zero_bits]
    · have hne : n ≠ 0 := by omega
      rw [popcountAux, if_neg hne]
      have hdiv : n / 2 < 2 ^ fuel := by
        have : n < 2 ^ fuel * 2 := by rw [Nat.pow_succ] at hn; omega
        omega
      rw [ih (n / 2) hdiv]
      rcases Nat.even_or_odd n with ⟨m, hm⟩ | ⟨m, hm⟩
      · have hm2 : n = 2 * m := by omega
        subst hm2
        have hm0 : m ≠ 0 := by omega
        rw [Nat.bit0_bits m hm0]
        have h2 : 2 * m / 2 = m := by omega
        rw [h2]
        simp
      · subst hm
        rw [Nat.bit1_bits m]
        have h2 : (2 * m + 1) / 2 = m := by omega
        rw [h2]
        simp [Nat.add_comm]

/-- `popcount n` is the number of true bits of `n`. -/
theorem popcount_eq_bits_count (n : Nat) : popcount n = n.bits.count true :=
  popcountAux_eq_bits_count n n (Nat.lt_two_pow n)

/-- The elimination-loop fold counts the elements of the traversed list
that satisfy the membership test, on top of the accumulator. -/
theorem eliminationFold_eq_filter_length (candidatesToKeep : List Nat) :
    ∀ (l : List Nat) (acc : Nat),
      l.foldl (fun resultIndex i =>
          if i ∈ candidatesToKeep then resultIndex + 1 else resultIndex) acc =
        acc + (l.filter (fun i => decide (i ∈ candidatesToKeep))).length := by
  intro l
  induction l with
  | nil => simp
  | cons a t ih =>
    intro acc
    by_cases h : a ∈ candidatesToKeep
    · simp [List.foldl_cons, List.filter_cons, h, ih]
      omega
    · simp [List.foldl_cons, List.filter_cons, h, ih]

/-- When the remaining count does not exceed the current grid size, one
entropy step shrinks the grid to exactly the remaining count. -/
theorem entropyStep_of_le {gridLen remaining : Nat} (h : remaining ≤ gridLen) :
    entropyStep gridLen remaining = remaining := by
  show (if 0 < (gridLen : Int) - (remaining : Int)
    then gridLen - (gridLen - remaining) else gridLen) = remaining
  split <;> omega

/-- Along a chain of non-increasing remaining counts starting from the
grid size, the grid trace reproduces the counts exactly. -/
theorem entropyGridTrace_eq_of_chain :
    ∀ (start : Nat) (restCounts : List Nat),
      List.Chain (fun a b => b ≤ a) start restCounts →
      entropyGridTrace start restCounts = restCounts := by
  intro start restCounts
  induction restCounts generalizing start with
  | nil => intro _; rfl
  | cons r rs ih =>
    intro hchain
    rcases hchain with _ | ⟨hle, htail⟩
    unfold entropyGridTrace
    rw [entropyStep_of_le hle]
    rw [ih r htail]

/-! ## Claim theorems -/

/-- Claim C1, counterexample: the claim states that the exit status of
`animations.py`'s `main` on a failed subprocess equals the subprocess's
return code, but for a subprocess that completes with return code `2`
the function returns `1`, not `2`. -/
theorem C1_counterexample :
    animations_main_exit (some 2) = some 1 ∧
      animations_main_exit (some 2) ≠ some 2 := by
  decide

/-- Claim C1, amended: `run_animation` returns exactly
`result.returncode` whenever the manim subprocess completes (for any
valid animation name) and `1` when an exception prevents the subprocess
from completing; `animations.py`'s `main` returns `1` on every failed
subprocess regardless of the specific non-zero return code, falls
through (returning `None`) on success, and returns `1` on an
exception. -/
theorem C1_exit_code_propagation :
    (∀ (animationName : String) (returncode : Int),
      animationName ∈ validAnimations →
        run_animation animationName (some returncode) = .ok returncode) ∧
    (∀ animationName : String,
      animationName ∈ validAnimations →
        run_animation animationName none = .ok 1) ∧
    (∀ returncode : Int, returncode ≠ 0 →
        animations_main_exit (some returncode) = some 1) ∧
    animations_main_exit (some 0) = none ∧
    animations_main_exit none = some 1 := by
  refine ⟨?_, ?_, ?_, rfl, rfl⟩
  · intro name c hmem
    rcases hl : animationToClass.lookup name with _ | cl
    · exact absurd hmem ((lookup_eq_none_iff_not_mem _ _).mp hl)
    · simp [run_animation, hl]
  · intro name hmem
    rcases hl : animationToClass.lookup name with _ | cl
    · exact absurd hmem ((lookup_eq_none_iff_not_mem _ _).mp hl)
    · simp [run_animation, hl]
  · intro c hc
    simp [animations_main_exit, hc]

/-- Claim C1, witness: the amended theorem applied at the valid name
`register_packing` with completed return codes `7` and `5` and at an
aborted subprocess. -/
theorem C1_witness :
    run_animation "register_packing" (some 7) = .ok 7 ∧
    run_animation "register_packing" none = .ok 1 ∧
    animations_main_exit (some 5) = some 1 :=
  ⟨C1_exit_code_propagation.1 "register_packing" 7 (by decide),
   C1_exit_code_propagation.2.1 "register_packing" (by decide),
   C1_exit_code_propagation.2.2.1 5 (by decide)⟩

/-- Claim C2, counterexample: for the name `register_packing` (accepted
by both entry points) with identical format, media directory and
quality, the two command lists are not equal — `run_animation` ends
with the class name `RegisterPackingExecution` while `animations.py`'s
`main` ends with the animation name itself. -/
theorem C2_counterexample :
    animationToClass.lookup "register_packing" = some "RegisterPackingExecution" ∧
    "register_packing" ∈ animationsMainChoices ∧
    runAnimationCmd "python" "gif" "media" "high" "RegisterPackingExecution" ≠
      animationsMainCmd "python" "gif" "media" "high" "register_packing" := by
  refine ⟨by decide, by decide, ?_⟩
  intro h
  have := congrArg (fun l => l.getLast?) h
  simp [runAnimationCmd, animationsMainCmd, qualityFlags] at this

/-- Claim C2, amended: for every animation name accepted by both entry
points and the same executable, format, media directory and quality,
the two command lists agree on everything except the final element:
both are a common list (fixed prefix, format, media-dir,
custom-folders, verbosity and quality flags, then the script name
`animations.py`) followed by one last element, which is the mapped
class name for `run_animation` but the raw animation name for
`animations.py`'s `main` — and those two strings always differ. -/
theorem C2_cmd_agree_except_scene :
    ∀ (animationName className : String),
      animationToClass.lookup animationName = some className →
      animationName ∈ animationsMainChoices →
      ∀ (pythonExe formatType mediaDir quality : String),
        (∃ common,
          runAnimationCmd pythonExe formatType mediaDir quality className =
            common ++ [className] ∧
          animationsMainCmd pythonExe formatType mediaDir quality animationName =
            common ++ [animationName]) ∧
        className ≠ animationName := by
  intro animationName className hlook hmem pythonExe formatType mediaDir quality
  constructor
  · refine ⟨([pythonExe, "-m", "manim",
      "--format", formatType,
      "--media_dir", mediaDir,
      "--custom_folders",
      "-v", "WARNING"] ++ qualityFlags quality) ++ ["animations.py"], ?_, ?_⟩
    · simp [runAnimationCmd, List.append_assoc]
    · simp [animationsMainCmd, List.append_assoc]
  · simp only [animationsMainChoices, List.mem_cons, List.not_mem_nil,
      or_false] at hmem
    rcases hmem with rfl | rfl | rfl | rfl | rfl | rfl <;>
      (simp [animationToClass, List.lookup] at hlook; subst hlook; decide)

/-- Claim C2, witness: the amended theorem applied at
`register_packing`. -/
theorem C2_witness :
    (∃ common,
      runAnimationCmd "python" "gif" "media" "high" "RegisterPackingExecution" =
        common ++ ["RegisterPackingExecution"] ∧
      animationsMainCmd "python" "gif" "media" "high" "register_packing" =
        common ++ ["register_packing"]) ∧
    "RegisterPackingExecution" ≠ "register_packing" :=
  C2_cmd_agree_except_scene "register_packing" "RegisterPackingExecution"
    (by decide) (by decide) "python" "gif" "media" "high"

/-- Claim C3: the dispatcher maps each of the nine animation names to
its fixed class name, and for every mapped name the manim command built
by `run_animation` ends with `["animations.py", <class name>]`. -/
theorem C3_dispatcher_mapping :
    (animationToClass.lookup "register_packing" =
        some "RegisterPackingExecution" ∧
     animationToClass.lookup "register_packing_detailed" =
        some "RegisterPackingDetailed" ∧
     animationToClass.lookup "register_packing_accurate" =
        some "RegisterPackingAccurate" ∧
     animationToClass.lookup "register_packing_accurate_fixed" =
        some "RegisterPackingAccurateFixed" ∧
     animationToClass.lookup "exact_match" = some "ExactMatchExecution" ∧
     animationToClass.lookup "elimination_loop" =
        some "EliminationLoopExecution" ∧
     animationToClass.lookup "entropy_reduction" = some "EntropyReduction" ∧
     animationToClass.lookup "stack_overwrite" =
        some "StackOverwriteExecution" ∧
     animationToClass.lookup "benchmark_chart" = some "BenchmarkChart") ∧
    (∀ (animationName className pythonExe formatType outputDir quality : String),
      animationToClass.lookup animationName = some className →
      ∃ common,
        runAnimationCmd pythonExe formatType outputDir quality className =
          common ++ ["animations.py", className]) := by
  refine ⟨by decide, ?_⟩
  intro animationName className pythonExe formatType outputDir quality _
  exact ⟨[pythonExe, "-m", "manim",
    "--format", formatType,
    "--media_dir", outputDir,
    "--custom_folders",
    "-v", "WARNING"] ++ qualityFlags quality, rfl⟩

/-- Claim C3, witness: the theorem's second part applied at
`register_packing`. -/
theorem C3_witness :
    ∃ common,
      runAnimationCmd "python" "gif" "media" "high" "RegisterPackingExecution" =
        common ++ ["animations.py", "RegisterPackingExecution"] :=
  C3_dispatcher_mapping.2 "register_packing" "RegisterPackingExecution"
    "python" "gif" "media" "high" (by decide)

/-- Claim C4: a name outside the nine valid keys makes `main` in
`run_animation.py` print an error and return `1` without creating the
output directory or launching a subprocess, and a name outside the
seven keys of `all_animations` makes `create_animation` raise
`ValueError` without constructing any instance. -/
theorem C4_unknown_names_rejected :
    (∀ (animationName : String) (subprocess : Option Int),
      animationName ∉ validAnimations →
        runAnimationMain animationName subprocess =
          { printedUnknownError := true, madeOutputDir := false,
            launchedSubprocess := false, exitCode := 1 }) ∧
    (∀ (animationName : String) (config : Option ConfigDict),
      animationName ∉ allAnimations.map Prod.fst →
        create_animation animationName config =
          .error (.valueError animationName)) := by
  constructor
  · intro name subprocess hmem
    simp [runAnimationMain, hmem]
  · intro name config hmem
    have hl : allAnimations.lookup name = none :=
      (lookup_eq_none_iff_not_mem _ _).mpr hmem
    simp [create_animation, hl]

/-- Claim C4, witness: the theorem applied at the unknown name
`does_not_exist`. -/
theorem C4_witness :
    runAnimationMain "does_not_exist" (some 0) =
      { printedUnknownError := true, madeOutputDir := false,
        launchedSubprocess := false, exitCode := 1 } ∧
    create_animation "does_not_exist" none =
      .error (.valueError "does_not_exist") :=
  ⟨C4_unknown_names_rejected.1 "does_not_exist" (some 0) (by decide),
   C4_unknown_names_rejected.2 "does_not_exist" none (by decide)⟩

/-- Claim C5: starting from the hard-coded mask `0x80808080`, each of
the four iterations first replaces the low byte by that byte rotated
right by 3 bit positions and then rotates the whole 32-bit value left
by 8 bit positions; every intermediate value stays below `2 ^ 32`, and
after the four iterations the value is `0x10101010`. -/
theorem C5_register_packing_rotation :
    (∀ i : Fin 4,
      registerPackingMid (registerPackingTrace initialMask i) =
        (registerPackingTrace initialMask i / 2 ^ 8) * 2 ^ 8 +
          rotrByteSpec (registerPackingTrace initialMask i % 2 ^ 8) 3 ∧
      registerPackingTrace initialMask ((i : Nat) + 1) =
        rotlWordSpec (registerPackingMid (registerPackingTrace initialMask i)) 8) ∧
    (∀ i : Fin 5, registerPackingTrace initialMask i < 2 ^ 32) ∧
    (∀ i : Fin 4,
      registerPackingMid (registerPackingTrace initialMask i) < 2 ^ 32) ∧
    registerPackingTrace initialMask 4 = 0x10101010 := by
  decide

/-- Claim C6: the exact-match computation is the popcount of the
bitwise AND of guess and secret — for every configured pair of values
the displayed count equals the number of true bits of
`guess &&& secret` — and under the default configuration
(`0x80A02040`, `0x80102040`) the count is `3`. -/
theorem C6_exact_match_popcount :
    (∀ guessValue secretValue : Nat,
      exactMatchBitCount guessValue secretValue =
        ((guessValue &&& secretValue).bits.count true)) ∧
    exactMatchBitCount defaultGuessValue defaultSecretValue = 3 := by
  refine ⟨fun g s => popcount_eq_bits_count _, ?_⟩
  have hand : defaultGuessValue &&& defaultSecretValue = 0x80002040 := by decide
  show popcount (defaultGuessValue &&& defaultSecretValue) = 3
  rw [hand, popcount_eq_bits_count,
    ← popcountAux_eq_bits_count 64 0x80002040 (by norm_num)]
  decide

/-- Claim C7: the elimination loop's kept-candidate count equals the
number of indices `i < num_candidates` that pass the hard-coded
membership test `i ∈ candidates_to_keep`, for every configuration; and
under the default configuration (`10` candidates, keep
`[0, 2, 4, 6, 8]`) the final count is `5`. -/
theorem C7_elimination_partition :
    (∀ (numCandidates : Nat) (candidatesToKeep : List Nat),
      eliminationLoopCount numCandidates candidatesToKeep =
        ((List.range numCandidates).filter
          (fun i => decide (i ∈ candidatesToKeep))).length) ∧
    eliminationLoopCount defaultNumCandidates defaultCandidatesToKeep = 5 := by
  constructor
  · intro numCandidates candidatesToKeep
    rw [eliminationLoopCount, eliminationFold_eq_filter_length]
    exact Nat.zero_add _
  · decide

/-- Claim C8, counterexample: with the configuration
`initial_possibilities = 10`, `remaining_counts = [1296, 432]` the
counts are non-increasing, yet after the first processed step the grid
still has `10` dots, not `remaining_counts[1] = 432` — the claimed
invariant needs the grid to start at `remaining_counts[0]`. -/
theorem C8_counterexample :
    List.Chain (fun a b => b ≤ a) 1296 [432] ∧
    entropyGridTrace 10 [432] = [10] ∧
    entropyGridTrace 10 [432] ≠ [432] := by
  refine ⟨List.Chain.cons (by norm_num) List.Chain.nil, by decide, by decide⟩

/-- Claim C8, amended: the displayed figures are read from the
configuration lists (`remaining_counts[i]`, `entropy_bits[i]`), and when
each `remaining_counts` entry is at most the previous one *and* the
grid starts with `remaining_counts[0]` dots (as in the default
configuration, where both are `1296`), the grid holds exactly
`remaining_counts[i]` dots after processing step `i`; in particular the
default trace is `[432, 144, 48, 12, 3, 1]`. -/
theorem C8_entropy_grid_invariant :
    (∀ (remainingCounts : List Nat) (i : Nat),
      entropyDisplayedRemaining remainingCounts i = remainingCounts.get? i) ∧
    (∀ (entropyBits : List String) (i : Nat),
      entropyDisplayedBits entropyBits i = entropyBits.get? i) ∧
    (∀ (head : Nat) (restCounts : List Nat),
      List.Chain (fun a b => b ≤ a) head restCounts →
      entropyGridTrace head restCounts = restCounts) ∧
    entropyGridTrace defaultInitialPossibilities defaultRemainingCounts.tail =
      [432, 144, 48, 12, 3, 1] := by
  exact ⟨fun _ _ => rfl, fun _ _ => rfl,
    entropyGridTrace_eq_of_chain, by decide⟩

/-- Claim C8, witness: the amended invariant applied to the default
non-increasing counts starting from the default `1296`-dot grid. -/
theorem C8_witness :
    entropyGridTrace 1296 [432, 144, 48, 12, 3, 1] =
      [432, 144, 48, 12, 3, 1] :=
  C8_entropy_grid_invariant.2.2.1 1296 [432, 144, 48, 12, 3, 1]
    (by norm_num)

/-- Claim C9: calling `run_animation` directly with a name outside the
nine-key mapping hits the unguarded dictionary lookup and raises
`KeyError` (the lookup precedes the `try` block), while every name
inside the mapping passes the lookup and the call returns an exit code
rather than a `KeyError`. -/
theorem C9_unguarded_lookup :
    (∀ (animationName : String) (subprocess : Option Int),
      animationName ∉ validAnimations →
        run_animation animationName subprocess =
          .error (.keyError animationName)) ∧
    (∀ (animationName : String) (subprocess : Option Int),
      animationName ∈ validAnimations →
        ∃ returncode : Int,
          run_animation animationName subprocess = .ok returncode) := by
  constructor
  · intro name subprocess hmem
    have hl : animationToClass.lookup name = none :=
      (lookup_eq_none_iff_not_mem _ _).mpr hmem
    simp [run_animation, hl]
  · intro name subprocess hmem
    rcases hl : animationToClass.lookup name with _ | cl
    · exact absurd hmem ((lookup_eq_none_iff_not_mem _ _).mp hl)
    · rcases subprocess with _ | c
      · exact ⟨1, by simp [run_animation, hl]⟩
      · exact ⟨c, by simp [run_animation, hl]⟩

/-- Claim C9, witness: the theorem applied at the unknown name
`not_an_animation` and at the valid name `benchmark_chart`. -/
theorem C9_witness :
    run_animation "not_an_animation" (some 0) =
      .error (.keyError "not_an_animation") ∧
    ∃ returncode : Int,
      run_animation "benchmark_chart" (some 0) = .ok returncode :=
  ⟨C9_unguarded_lookup.1 "not_an_animation" (some 0) (by decide),
   C9_unguarded_lookup.2 "benchmark_chart" (some 0) (by decide)⟩

/-- Claim C10: `BaseAnimation`'s configuration handling replaces rather
than merges — for any subclass's default configuration, passing `None`
or the empty dictionary yields exactly the default, while passing any
non-empty dictionary yields exactly that dictionary with no default
keys filled in. -/
theorem C10_config_replaces_not_merges :
    ∀ defaultConfig : ConfigDict,
      baseAnimationInit defaultConfig none = defaultConfig ∧
      baseAnimationInit defaultConfig (some []) = defaultConfig ∧
      ∀ config : ConfigDict, config ≠ [] →
        baseAnimationInit defaultConfig (some config) = config := by
  intro defaultConfig
  refine ⟨rfl, rfl, ?_⟩
  intro config hne
  have : config.isEmpty = false := by
    cases config with
    | nil => exact absurd rfl hne
    | cons a t => rfl
  simp [baseAnimationInit, this]

/-- Claim C10, witness: the theorem applied to a concrete default
configuration and a concrete non-empty override dictionary. -/
theorem C10_witness :
    baseAnimationInit [("width", "16"), ("height", "9")]
        (some [("font_size", "40")]) = [("font_size", "40")] :=
  (C10_config_replaces_not_merges [("width", "16"), ("height", "9")]).2.2
    [("font_size", "40")] (by simp)

end MastermindAnim
